import Mathlib

/-!
Shallow embedding of `src/options.rs` from the `ord` repository: the
configuration resolver (`Options`) with its chain/network mapping and the
four derived-value accessors `max_index_size`, `rpc_url`, `cookie_file`
and `data_dir`, plus the `bitcoin_rpc_client` factory glue.

Filesystem paths are modelled as lists of segments; `PathBuf::join` with a
relative segment is list append of one segment (every `join` argument in
the source is a relative literal).  Stateful filesystem code
(`fs::create_dir_all`) is embedded by explicit state passing over an `FS`
state; accessors that perform no filesystem operation thread the state
through unchanged.  Fallible code returns `Except Err`.
-/

/-- A filesystem path, as a list of path segments. -/
abbrev PathBuf := List String

/-- Display a path, segments separated by the path separator
(mirrors `PathBuf::display`). -/
def PathBuf.display (p : PathBuf) : String := String.intercalate "/" p

/-- All prefixes of a path (used by the semantics of `create_dir_all`,
which creates every missing intermediate directory). -/
def PathBuf.prefixes (p : PathBuf) : List PathBuf :=
  (List.range (p.length + 1)).map (fun n => p.take n)

/-- Modelled from the spec: the network identity enum of the external
`bitcoin` crate (`Network`), used by `options.rs` via `super::*`.  Only
the four variants the source matches on are modelled. -/
inductive Network
  | Bitcoin
  | Regtest
  | Signet
  | Testnet
deriving DecidableEq, Repr

/-- Modelled from the spec: `Network`'s `Display` implementation in the
external `bitcoin` crate renders the lowercase network name; the spec
calls the directory suffix the "lowercase network name". -/
def Network.toString : Network → String
  | .Bitcoin => "bitcoin"
  | .Regtest => "regtest"
  | .Signet => "signet"
  | .Testnet => "testnet"

/-- The chain selector enum (`enum Chain` in `options.rs`). -/
inductive Chain
  | Main
  | Mainnet
  | Regtest
  | Signet
  | Test
  | Testnet
deriving DecidableEq, Repr

/-- `Chain::network` from `options.rs`. -/
def Chain.network : Chain → Network
  | .Main | .Mainnet => Network.Bitcoin
  | .Regtest => Network.Regtest
  | .Signet => Network.Signet
  | .Test | .Testnet => Network.Testnet

/-- `Chain::join_network_with_data_dir` from `options.rs`. -/
def Chain.join_network_with_data_dir (c : Chain) (data_dir : PathBuf) : PathBuf :=
  match c.network with
  | Network.Bitcoin => data_dir
  | other => data_dir ++ [other.toString]

/-- `Bytes` is a newtype over `u64`; modelled as `Nat` (no arithmetic in
the source can overflow: the only operations are the constants below and
`10 * 2^20`). -/
abbrev Bytes := Nat

/-- Modelled from the spec: `Bytes::MIB`, 2^20 bytes (binary multiple). -/
def Bytes.MIB : Bytes := 2 ^ 20

/-- Modelled from the spec: `Bytes::TIB`, 2^40 bytes (binary multiple). -/
def Bytes.TIB : Bytes := 2 ^ 40

/-- An `anyhow`-style error: either a leaf message (`anyhow!` / `bail!`)
or a context layer wrapped around an underlying cause (`.context(...)`). -/
inductive Err
  | msg (s : String)
  | context (ctx : String) (cause : Err)
deriving DecidableEq, Repr

/-- Modelled from the spec: the platform environment consulted by the
external `dirs` crate and the `cfg!(target_os = "linux")` compile-time
test.  `home_dir` is `dirs::home_dir()`, `env_data_dir` is
`dirs::data_dir()`; either lookup may fail (`none`). -/
structure Env where
  target_os_linux : Bool
  home_dir : Option PathBuf
  env_data_dir : Option PathBuf
deriving DecidableEq, Repr

/-- Filesystem state: the set of existing directories, the set of paths
whose creation the environment refuses (permissions, disk, invalid path),
and the operating-system error text reported on a refused creation. -/
structure FS where
  dirs : List PathBuf
  fail_create : List PathBuf
  io_error : String
deriving DecidableEq, Repr

/-- Modelled from the spec: `fs::create_dir_all`.  Succeeds without change
when the directory already exists; fails when the environment refuses the
creation; otherwise creates the directory together with every missing
intermediate segment. -/
def FS.create_dir_all (fs : FS) (p : PathBuf) : Option FS :=
  if p ∈ fs.dirs then some fs
  else if p ∈ fs.fail_create then none
  else some ⟨p.prefixes ++ fs.dirs, fs.fail_create, fs.io_error⟩

/-- Filesystem well-formedness: every prefix of an existing directory
exists (true of a real filesystem: a directory's parents exist). -/
def FS.Wf (fs : FS) : Prop :=
  ∀ p, p ∈ fs.dirs → ∀ q, q ∈ p.prefixes → q ∈ fs.dirs

/-- `struct Options` from `options.rs`.  The clap-parsed argument fields
carry an `_arg` suffix so the derived-value accessors can keep the
source's method names. -/
structure Options where
  max_index_size_arg : Option Bytes
  cookie_file_arg : Option PathBuf
  rpc_url_arg : Option String
  chain : Chain
  data_dir_arg : Option PathBuf
  bitcoin_data_dir_arg : Option PathBuf
  height_limit : Option Nat
deriving DecidableEq, Repr

/-- `Options::max_index_size` from `options.rs`. -/
def Options.max_index_size (o : Options) : Bytes :=
  match o.max_index_size_arg with
  | some n => n
  | none =>
    match o.chain.network with
    | Network.Regtest => Bytes.MIB * 10
    | Network.Bitcoin | Network.Signet | Network.Testnet => Bytes.TIB

/-- `Options::rpc_url` from `options.rs`. -/
def Options.rpc_url (o : Options) : String :=
  match o.rpc_url_arg with
  | some u => u
  | none =>
    "127.0.0.1:" ++
      match o.chain.network with
      | Network.Bitcoin => "8332"
      | Network.Regtest => "18443"
      | Network.Signet => "38332"
      | Network.Testnet => "18332"

/-- `Options::cookie_file` from `options.rs`.  The function performs no
filesystem operation, so the threaded filesystem state is returned
unchanged on every success path. -/
def Options.cookie_file (o : Options) (env : Env) (fs : FS) :
    Except Err (PathBuf × FS) :=
  match o.cookie_file_arg with
  | some cookie_file => Except.ok (cookie_file, fs)
  | none =>
    let base : Except Err PathBuf :=
      match o.bitcoin_data_dir_arg with
      | some bitcoin_data_dir => Except.ok bitcoin_data_dir
      | none =>
        if env.target_os_linux then
          match env.home_dir with
          | some h => Except.ok (h ++ [".bitcoin"])
          | none => Except.error (Err.msg "Failed to retrieve home dir")
        else
          match env.env_data_dir with
          | some d => Except.ok (d ++ ["Bitcoin"])
          | none => Except.error (Err.msg "Failed to retrieve data dir")
    match base with
    | Except.error e => Except.error e
    | Except.ok path =>
      Except.ok (o.chain.join_network_with_data_dir path ++ [".cookie"], fs)

/-- `Options::data_dir` from `options.rs`. -/
def Options.data_dir (o : Options) (env : Env) (fs : FS) :
    Except Err (PathBuf × FS) :=
  match o.data_dir_arg with
  | some data_dir => Except.ok (data_dir, fs)
  | none =>
    match env.env_data_dir with
    | none => Except.error (Err.msg "Failed to retrieve data dir")
    | some base =>
      let path := o.chain.join_network_with_data_dir (base ++ ["ord"])
      match fs.create_dir_all path with
      | none =>
        Except.error (Err.msg
          ("Failed to create data dir `" ++ path.display ++ "`: " ++ fs.io_error))
      | some fs2 => Except.ok (path, fs2)

/-- `Options::bitcoin_rpc_client` from `options.rs`.  The external RPC
client factory (`Client::new`) is a parameter; the handle type is
abstract.  Note the `.context(...)` argument in the source is a plain
string literal, so the text between the braces is NOT interpolated: the
context is the constant text `Failed to connect to Bitcoin Core RPC at
\x7brpc_url\x7d`. -/
def Options.bitcoin_rpc_client {γ : Type} (o : Options) (env : Env) (fs : FS)
    (client_new : String → PathBuf → Except Err γ) : Except Err (γ × FS) :=
  match o.cookie_file env fs with
  | Except.error e => Except.error e
  | Except.ok (cookie_file, fs2) =>
    let rpc_url := o.rpc_url
    match client_new rpc_url cookie_file with
    | Except.error e =>
      Except.error
        (Err.context "Failed to connect to Bitcoin Core RPC at \x7brpc_url\x7d" e)
    | Except.ok c => Except.ok (c, fs2)

/-- Spec-side definition (§4.1 `directory_suffix`): the base path
unchanged for the primary network, otherwise the base path joined with the
identity's lowercase name as one segment.  Compared against the source's
`Chain.join_network_with_data_dir`. -/
def directory_suffix (n : Network) (base : PathBuf) : PathBuf :=
  if n = Network.Bitcoin then base else base ++ [n.toString]

/-- Spec-side definition: the platform default node-data location of
§4.2 step 2 (home-dir joined with `.bitcoin` on a Unix-like target,
app-data dir joined with `Bitcoin` otherwise; a failed lookup is a
configuration-resolution error). -/
def platform_node_base (env : Env) : Except Err PathBuf :=
  if env.target_os_linux then
    match env.home_dir with
    | some h => Except.ok (h ++ [".bitcoin"])
    | none => Except.error (Err.msg "Failed to retrieve home dir")
  else
    match env.env_data_dir with
    | some d => Except.ok (d ++ ["Bitcoin"])
    | none => Except.error (Err.msg "Failed to retrieve data dir")

/-- Replace the chain selector of an option set, all override fields kept. -/
def Options.withChain (o : Options) (c : Chain) : Options :=
  ⟨o.max_index_size_arg, o.cookie_file_arg, o.rpc_url_arg, c,
    o.data_dir_arg, o.bitcoin_data_dir_arg, o.height_limit⟩

/-- The source's network suffixing agrees with the spec's
`directory_suffix` table. -/
theorem join_network_eq_directory_suffix (c : Chain) (p : PathBuf) :
    c.join_network_with_data_dir p = directory_suffix c.network p := by
  cases c <;>
    simp [Chain.join_network_with_data_dir, Chain.network, directory_suffix,
      Network.toString]

/-- A path is one of its own prefixes. -/
theorem PathBuf.self_mem_prefixes (p : PathBuf) : p ∈ p.prefixes := by
  unfold PathBuf.prefixes
  refine List.mem_map.mpr ⟨p.length, ?_, List.take_length p⟩
  exact List.mem_range.mpr (Nat.lt_succ_self _)

/-- After a successful `create_dir_all`, the target directory exists. -/
theorem FS.create_dir_all_mem (fs fs2 : FS) (p : PathBuf)
    (h : fs.create_dir_all p = some fs2) : p ∈ fs2.dirs := by
  unfold FS.create_dir_all at h
  by_cases h1 : p ∈ fs.dirs
  · simp [h1] at h
    exact h ▸ h1
  · by_cases h2 : p ∈ fs.fail_create
    · simp [h1, h2] at h
    · simp [h1, h2] at h
      subst h
      exact List.mem_append.mpr (Or.inl (PathBuf.self_mem_prefixes p))

/-- `create_dir_all` on an existing directory succeeds without change. -/
theorem FS.create_dir_all_of_mem (fs : FS) (p : PathBuf) (h : p ∈ fs.dirs) :
    fs.create_dir_all p = some fs := by
  unfold FS.create_dir_all
  simp [h]

/-- After a successful `create_dir_all` on a well-formed state, every
prefix of the target exists. -/
theorem FS.create_dir_all_prefixes (fs fs2 : FS) (p : PathBuf) (hwf : fs.Wf)
    (h : fs.create_dir_all p = some fs2) :
    ∀ q, q ∈ p.prefixes → q ∈ fs2.dirs := by
  unfold FS.create_dir_all at h
  intro q hq
  by_cases h1 : p ∈ fs.dirs
  · simp [h1] at h
    exact h ▸ hwf p h1 q hq
  · by_cases h2 : p ∈ fs.fail_create
    · simp [h1, h2] at h
    · simp [h1, h2] at h
      subst h
      exact List.mem_append.mpr (Or.inl hq)

/-- Repeating a successful `create_dir_all` succeeds with the same state. -/
theorem FS.create_dir_all_idem (fs fs2 : FS) (p : PathBuf)
    (h : fs.create_dir_all p = some fs2) :
    fs2.create_dir_all p = some fs2 :=
  FS.create_dir_all_of_mem fs2 p (FS.create_dir_all_mem fs fs2 p h)

/-- With no override and neither lookup failing, the default branch of
`cookie_file` is the spec's pipeline over `platform_node_base`. -/
theorem cookie_file_default_eq (o : Options) (env : Env) (fs : FS)
    (h : o.cookie_file_arg = none) (hb : o.bitcoin_data_dir_arg = none) :
    o.cookie_file env fs =
      match platform_node_base env with
      | Except.ok base =>
          Except.ok (o.chain.join_network_with_data_dir base ++ [".cookie"], fs)
      | Except.error e => Except.error e := by
  cases hl : env.target_os_linux
  · cases hd : env.env_data_dir <;>
      simp [Options.cookie_file, platform_node_base, h, hb, hl, hd]
  · cases hh : env.home_dir <;>
      simp [Options.cookie_file, platform_node_base, h, hb, hl, hh]

/-- Sample option set: no overrides, chain Signet. -/
def oSignet : Options := ⟨none, none, none, Chain.Signet, none, none, none⟩

/-- Sample option set: explicit credential-file override `/foo/bar`. -/
def oCookie : Options :=
  ⟨none, some ["foo", "bar"], none, Chain.Signet, none, none, none⟩

/-- Sample option set: explicit one-byte index-size override on Regtest. -/
def oMax1 : Options := ⟨some 1, none, none, Chain.Regtest, none, none, none⟩

/-- Sample option set: explicit RPC URL override with chain Signet. -/
def oUrl : Options :=
  ⟨none, some ["foo", "bar"], some "127.0.0.1:1234", Chain.Signet, none, none, none⟩

/-- Sample option set: external node-data directory override `foo`. -/
def oBdd : Options := ⟨none, none, none, Chain.Signet, none, some ["foo"], none⟩

/-- Sample option set: explicit data-directory override `idx`. -/
def oData : Options := ⟨none, none, none, Chain.Signet, some ["idx"], none, none⟩

/-- Sample environment: Linux with both lookups available. -/
def envLinux : Env :=
  ⟨true, some ["home", "alice"], some ["home", "alice", ".local", "share"]⟩

/-- Sample environment: Linux, home-directory lookup fails. -/
def envNoHome : Env := ⟨true, none, none⟩

/-- Sample filesystem: empty, creation refused nowhere. -/
def fs0 : FS := ⟨[], [], "permission denied"⟩

/-- The data-dir path the defaults produce under `envLinux` with Signet. -/
def pth5 : PathBuf := ["home", "alice", ".local", "share", "ord", "signet"]

/-- The filesystem state after creating `pth5` in `fs0`. -/
def fs1 : FS := ⟨pth5.prefixes, [], "permission denied"⟩

/-- The empty filesystem is well-formed. -/
theorem fs0_wf : fs0.Wf := by
  intro p hp q hq
  simp [fs0] at hp

/-- A failing RPC client factory (construction is rejected). -/
def failNew : String → PathBuf → Except Err Unit :=
  fun _ _ => Except.error (Err.msg "connection refused")

/-- The option set `oUrl` with its RPC URL override replaced. -/
def mkUrlOpts (u : String) : Options :=
  ⟨none, some ["foo", "bar"], some u, Chain.Signet, none, none, none⟩

/-- Claim C2: `max_index_size` returns the user-supplied byte count
verbatim when one is given (including degenerate values such as 0 or 1,
for every chain); otherwise it returns exactly 10 * 2^20 bytes when the
active network is Regtest and exactly 2^40 bytes for every other
network. -/
theorem max_index_size_resolution (o : Options) :
    (∀ n, o.max_index_size_arg = some n → o.max_index_size = n)
    ∧ (o.max_index_size_arg = none → o.chain.network = Network.Regtest →
        o.max_index_size = 10 * 2 ^ 20)
    ∧ (o.max_index_size_arg = none → o.chain.network ≠ Network.Regtest →
        o.max_index_size = 2 ^ 40) := by
  refine ⟨?_, ?_, ?_⟩
  · intro n h
    simp [Options.max_index_size, h]
  · intro h hn
    simp [Options.max_index_size, h, hn, Bytes.MIB]
  · intro h hn
    cases hc : o.chain.network <;>
      simp_all [Options.max_index_size, Bytes.TIB]

/-- Witness for C2: the one-byte override on Regtest yields exactly 1. -/
theorem max_index_size_resolution_witness : oMax1.max_index_size = 1 :=
  (max_index_size_resolution oMax1).1 1 rfl

/-- Claim C3: `rpc_url` returns the user-supplied URL string verbatim when
one is given, for every chain; otherwise it returns `127.0.0.1:<port>`
with port 8332 for the primary network, 18443 for Regtest, 38332 for
Signet and 18332 for Testnet. -/
theorem rpc_url_resolution (o : Options) :
    (∀ u, o.rpc_url_arg = some u → o.rpc_url = u)
    ∧ (o.rpc_url_arg = none → o.chain.network = Network.Bitcoin →
        o.rpc_url = "127.0.0.1:8332")
    ∧ (o.rpc_url_arg = none → o.chain.network = Network.Regtest →
        o.rpc_url = "127.0.0.1:18443")
    ∧ (o.rpc_url_arg = none → o.chain.network = Network.Signet →
        o.rpc_url = "127.0.0.1:38332")
    ∧ (o.rpc_url_arg = none → o.chain.network = Network.Testnet →
        o.rpc_url = "127.0.0.1:18332") := by
  refine ⟨?_, ?_, ?_, ?_, ?_⟩
  · intro u h
    simp [Options.rpc_url, h]
  all_goals intro h hn
  all_goals simp [Options.rpc_url, h, hn]

/-- Witness for C3: an explicit URL override with chain Signet is returned
verbatim. -/
theorem rpc_url_resolution_witness : oUrl.rpc_url = "127.0.0.1:1234" :=
  (rpc_url_resolution oUrl).1 "127.0.0.1:1234" rfl

/-- Claim C4: for every set of override values, the chain selectors Main
and Mainnet produce identical results from all four derived-value
accessors, and likewise Test and Testnet. -/
theorem alias_pairs_equivalent (o : Options) (env : Env) (fs : FS) :
    ((o.withChain Chain.Main).max_index_size
        = (o.withChain Chain.Mainnet).max_index_size)
    ∧ ((o.withChain Chain.Main).rpc_url = (o.withChain Chain.Mainnet).rpc_url)
    ∧ ((o.withChain Chain.Main).cookie_file env fs
        = (o.withChain Chain.Mainnet).cookie_file env fs)
    ∧ ((o.withChain Chain.Main).data_dir env fs
        = (o.withChain Chain.Mainnet).data_dir env fs)
    ∧ ((o.withChain Chain.Test).max_index_size
        = (o.withChain Chain.Testnet).max_index_size)
    ∧ ((o.withChain Chain.Test).rpc_url = (o.withChain Chain.Testnet).rpc_url)
    ∧ ((o.withChain Chain.Test).cookie_file env fs
        = (o.withChain Chain.Testnet).cookie_file env fs)
    ∧ ((o.withChain Chain.Test).data_dir env fs
        = (o.withChain Chain.Testnet).data_dir env fs) :=
  ⟨rfl, rfl, rfl, rfl, rfl, rfl, rfl, rfl⟩

/-- Claim C1: `cookie_file` resolves in order: an explicit credential-file
override is returned unchanged (no network suffix, no existence check, no
error possible); otherwise the base directory is the external node-data
override if supplied, else the platform default node-data location, then
the network suffix is applied (none for the primary network, the lowercase
network name otherwise) and the fixed segment `.cookie` is appended. -/
theorem cookie_file_resolution (o : Options) (env : Env) (fs : FS) :
    (∀ cf, o.cookie_file_arg = some cf →
        o.cookie_file env fs = Except.ok (cf, fs))
    ∧ (∀ b, o.cookie_file_arg = none → o.bitcoin_data_dir_arg = some b →
        o.cookie_file env fs =
          Except.ok (directory_suffix o.chain.network b ++ [".cookie"], fs))
    ∧ (∀ base, o.cookie_file_arg = none → o.bitcoin_data_dir_arg = none →
        platform_node_base env = Except.ok base →
        o.cookie_file env fs =
          Except.ok (directory_suffix o.chain.network base ++ [".cookie"], fs))
    ∧ (∀ e, o.cookie_file_arg = none → o.bitcoin_data_dir_arg = none →
        platform_node_base env = Except.error e →
        o.cookie_file env fs = Except.error e) := by
  refine ⟨?_, ?_, ?_, ?_⟩
  · intro cf h
    simp [Options.cookie_file, h]
  · intro b h hb
    simp [Options.cookie_file, h, hb, join_network_eq_directory_suffix]
  · intro base h hb hp
    rw [cookie_file_default_eq o env fs h hb, hp]
    simp [join_network_eq_directory_suffix]
  · intro e h hb hp
    rw [cookie_file_default_eq o env fs h hb, hp]

/-- Witness for C1: the explicit override `/foo/bar` with chain Signet is
returned unchanged. -/
theorem cookie_file_resolution_witness :
    oCookie.cookie_file envLinux fs0 = Except.ok (["foo", "bar"], fs0) :=
  (cookie_file_resolution oCookie envLinux fs0).1 ["foo", "bar"] rfl

/-- Claim C5: with no data-directory override, `data_dir` computes the
platform default application-data location joined with the fixed segment
`ord`, applies the network suffix, creates the resulting directory with
all missing intermediate segments, and returns the path only after the
creation succeeds; a creation failure produces an error carrying the
underlying cause and the attempted path. -/
theorem data_dir_default_resolution (o : Options) (env : Env) (fs : FS)
    (base : PathBuf) (hov : o.data_dir_arg = none) (hwf : fs.Wf)
    (hbase : env.env_data_dir = some base) :
    (∀ fs2,
        fs.create_dir_all (directory_suffix o.chain.network (base ++ ["ord"]))
            = some fs2 →
        o.data_dir env fs =
          Except.ok (directory_suffix o.chain.network (base ++ ["ord"]), fs2)
        ∧ ∀ q,
            q ∈ (directory_suffix o.chain.network (base ++ ["ord"])).prefixes →
            q ∈ fs2.dirs)
    ∧ (fs.create_dir_all (directory_suffix o.chain.network (base ++ ["ord"]))
            = none →
        o.data_dir env fs =
          Except.error (Err.msg ("Failed to create data dir `"
            ++ (directory_suffix o.chain.network (base ++ ["ord"])).display
            ++ "`: " ++ fs.io_error))) := by
  have hj := join_network_eq_directory_suffix o.chain (base ++ ["ord"])
  constructor
  · intro fs2 hc
    constructor
    · simp [Options.data_dir, hov, hbase, hj, hc]
    · exact FS.create_dir_all_prefixes fs fs2 _ hwf hc
  · intro hc
    simp [Options.data_dir, hov, hbase, hj, hc]

/-- Witness for C5: under the sample Linux environment with chain Signet
and an empty filesystem, `data_dir` creates and returns
`home/alice/.local/share/ord/signet`. -/
theorem data_dir_default_resolution_witness :
    oSignet.data_dir envLinux fs0 = Except.ok (pth5, fs1) :=
  ((data_dir_default_resolution oSignet envLinux fs0
      ["home", "alice", ".local", "share"] rfl fs0_wf rfl).1 fs1 (by decide)).1

/-- Claim C6: an explicit data-directory override is returned unchanged —
no network suffix is applied and no directory creation is attempted (the
filesystem state is untouched) — while `cookie_file` never creates any
directory on any path, including under an external node-data override. -/
theorem override_frame (o : Options) (env : Env) (fs : FS) :
    (∀ d, o.data_dir_arg = some d → o.data_dir env fs = Except.ok (d, fs))
    ∧ (∀ p fs2, o.cookie_file env fs = Except.ok (p, fs2) → fs2 = fs) := by
  constructor
  · intro d h
    simp [Options.data_dir, h]
  · intro p fs2 h
    cases hc : o.cookie_file_arg
    · cases hb : o.bitcoin_data_dir_arg
      · cases hl : env.target_os_linux
        · cases hd : env.env_data_dir <;>
            simp_all [Options.cookie_file]
        · cases hh : env.home_dir <;>
            simp_all [Options.cookie_file]
      · simp_all [Options.cookie_file]
    · simp_all [Options.cookie_file]

/-- Witness for C6: the explicit data-directory override `idx` is
returned unchanged with the filesystem untouched. -/
theorem override_frame_witness :
    oData.data_dir envLinux fs0 = Except.ok (["idx"], fs0) :=
  (override_frame oData envLinux fs0).1 ["idx"] rfl

/-- Claim C8: if the platform home/application-data directory lookup fails
and no overriding path was supplied, `cookie_file` and `data_dir` each
return a typed error with a descriptive message. -/
theorem env_lookup_failure_reported (o : Options) (env : Env) (fs : FS)
    (hcf : o.cookie_file_arg = none) (hbdd : o.bitcoin_data_dir_arg = none)
    (hdd : o.data_dir_arg = none) :
    (env.target_os_linux = true → env.home_dir = none →
      o.cookie_file env fs
        = Except.error (Err.msg "Failed to retrieve home dir"))
    ∧ (env.target_os_linux = false → env.env_data_dir = none →
      o.cookie_file env fs
        = Except.error (Err.msg "Failed to retrieve data dir"))
    ∧ (env.env_data_dir = none →
      o.data_dir env fs
        = Except.error (Err.msg "Failed to retrieve data dir")) := by
  refine ⟨?_, ?_, ?_⟩
  · intro hl hh
    simp [Options.cookie_file, hcf, hbdd, hl, hh]
  · intro hl hd
    simp [Options.cookie_file, hcf, hbdd, hl, hd]
  · intro hd
    simp [Options.data_dir, hdd, hd]

/-- Witness for C8: on Linux with no home directory and no overrides,
`cookie_file` reports the home-directory failure. -/
theorem env_lookup_failure_reported_witness :
    oSignet.cookie_file envNoHome fs0
      = Except.error (Err.msg "Failed to retrieve home dir") :=
  (env_lookup_failure_reported oSignet envNoHome fs0 rfl rfl rfl).1 rfl rfl

/-- Claim C9: `data_dir` is idempotent over filesystem state: a second
call with identical inputs on the state produced by a successful first
call yields the same path and does not error merely because the directory
already exists. -/
theorem data_dir_idempotent (o : Options) (env : Env) (fs fs2 : FS)
    (p : PathBuf) (h : o.data_dir env fs = Except.ok (p, fs2)) :
    o.data_dir env fs2 = Except.ok (p, fs2) := by
  cases hov : o.data_dir_arg
  · cases hd : env.env_data_dir
    · simp [Options.data_dir, hov, hd] at h
    · rename_i base
      cases hc :
          fs.create_dir_all (o.chain.join_network_with_data_dir (base ++ ["ord"]))
      · simp [Options.data_dir, hov, hd, hc] at h
      · rename_i fs3
        simp only [Options.data_dir, hov, hd, hc] at h
        simp only [Except.ok.injEq, Prod.mk.injEq] at h
        obtain ⟨hp, hfs⟩ := h
        subst hp
        subst hfs
        simp [Options.data_dir, hov, hd, FS.create_dir_all_idem fs fs3 _ hc]
  · simp_all [Options.data_dir, hov]

/-- Witness for C9: repeating the successful `data_dir` call of the C5
witness on the resulting filesystem state returns the same path and
state without error. -/
theorem data_dir_idempotent_witness :
    oSignet.data_dir envLinux fs1 = Except.ok (pth5, fs1) :=
  data_dir_idempotent oSignet envLinux fs0 fs1 pth5 (by rfl)

/-- Claim C10: whenever an explicit credential-file override or an
external node-data directory override is supplied, `cookie_file` always
succeeds with the filesystem state unchanged, and it consults no platform
directory lookup: its result is identical under every environment, so the
environment-lookup error branch is unreachable. -/
theorem cookie_file_override_total (o : Options) (env : Env) (fs : FS)
    (h : o.cookie_file_arg ≠ none ∨ o.bitcoin_data_dir_arg ≠ none) :
    (∃ p, o.cookie_file env fs = Except.ok (p, fs))
    ∧ ∀ env2, o.cookie_file env2 fs = o.cookie_file env fs := by
  cases hc : o.cookie_file_arg with
  | some cf =>
    refine ⟨⟨cf, ?_⟩, ?_⟩
    · simp [Options.cookie_file, hc]
    · intro env2
      simp [Options.cookie_file, hc]
  | none =>
    cases hb : o.bitcoin_data_dir_arg with
    | none =>
      rw [hc, hb] at h
      rcases h with h | h <;> exact absurd rfl h
    | some b =>
      refine ⟨⟨o.chain.join_network_with_data_dir b ++ [".cookie"], ?_⟩, ?_⟩
      · simp [Options.cookie_file, hc, hb]
      · intro env2
        simp [Options.cookie_file, hc, hb]

/-- Witness for C10: with the external node-data override `foo` and chain
Signet, `cookie_file` succeeds even in an environment with no home
directory. -/
theorem cookie_file_override_total_witness :
    (∃ p, oBdd.cookie_file envNoHome fs0 = Except.ok (p, fs0))
    ∧ ∀ env2, oBdd.cookie_file env2 fs0 = oBdd.cookie_file envNoHome fs0 :=
  cookie_file_override_total oBdd envNoHome fs0 (Or.inr (by decide))

/-- Claim C7 (code bug): on construction failure `bitcoin_rpc_client`
wraps the underlying error and performs no retry or fallback, but the
wrapping context is the constant literal text `Failed to connect to
Bitcoin Core RPC at \x7brpc_url\x7d`: the braces in the source's
`.context(...)` string literal are not interpolated (unlike the adjacent
`log::info!` line), so the context is identical for every attempted URL
and does not identify it. -/
theorem bitcoin_rpc_client_context_omits_url :
    (@Options.bitcoin_rpc_client Unit oUrl envLinux fs0 failNew
      = Except.error (Err.context
          "Failed to connect to Bitcoin Core RPC at \x7brpc_url\x7d"
          (Err.msg "connection refused")))
    ∧ ∀ u : String,
        @Options.bitcoin_rpc_client Unit (mkUrlOpts u) envLinux fs0 failNew
          = Except.error (Err.context
              "Failed to connect to Bitcoin Core RPC at \x7brpc_url\x7d"
              (Err.msg "connection refused")) :=
  ⟨rfl, fun _ => rfl⟩
